import Mathlib

/-!
Verification development for the Webcam Behavior Analytics repository.

The repository sources under version control contain the React frontend
(src/frontend/src/App.js).  The backend frame-to-state pipeline
(FrameIngestor, MetricComputer, StateClassifier, ResultEmitter) is not
present in the source tree, so those components are modelled from the
specification (sections 4, 6, 7); each such definition carries a doc
comment starting with "Modelled from the spec:".  Frontend definitions
are embedded directly from App.js.

Numbers: JavaScript numbers and Python floats are embedded as rationals,
frame counts as naturals.
-/

namespace WBA

/-! ## Classifier data model (modelled from the spec) -/

/-- Modelled from the spec: the five classification states of section 3
(ClassificationState) and section 4.4. -/
inductive EngagementState where
  | Attentive
  | Drowsy
  | Yawning
  | Distracted
  | NoFace
deriving DecidableEq, Repr

/-- Modelled from the spec: per-frame Metrics record of section 3,
`{ear, mar, head_deviation}` (the timestamp plays no role in any claim
and is omitted from the record). -/
structure Metrics where
  ear : ℚ
  mar : ℚ
  headDeviation : ℚ
deriving DecidableEq, Repr

/-- Modelled from the spec: recognized configuration options of section 6:
`EAR_THRESH`, `MAR_THRESH`, `ANGLE_THRESH`, `CONSEC_FRAMES`. -/
structure Config where
  earThresh : ℚ
  marThresh : ℚ
  angleThresh : ℚ
  consecFrames : Nat
deriving DecidableEq, Repr

/-- Modelled from the spec: the four independent consecutive-frame
counters of section 3, one per non-Attentive condition. -/
structure Counters where
  noface : Nat
  drowsy : Nat
  yawn : Nat
  distract : Nat
deriving DecidableEq, Repr

/-- The all-zero initial counters (spec section 4.4: initial state Attentive,
no condition pending). -/
def initCounters : Counters := ⟨0, 0, 0, 0⟩

/-- Modelled from the spec: counter update of section 4.4, rules 1 and 2.
An `Absent` frame (`none`) increments the NoFace counter and resets the
other three; a present frame evaluates the three metric conditions
(`ear < EAR_THRESH`, `mar > MAR_THRESH`, `head_deviation > ANGLE_THRESH`),
incrementing each satisfied condition's counter and resetting the others,
and resets the NoFace counter (the counters count consecutive frames). -/
def updateCounters (cfg : Config) (c : Counters) : Option Metrics → Counters
  | none => ⟨c.noface + 1, 0, 0, 0⟩
  | some m =>
      ⟨0,
       if m.ear < cfg.earThresh then c.drowsy + 1 else 0,
       if m.mar > cfg.marThresh then c.yawn + 1 else 0,
       if m.headDeviation > cfg.angleThresh then c.distract + 1 else 0⟩

/-- Modelled from the spec: classification of section 4.4, rules 1, 3 and 4.
The reported state is the highest-priority condition whose counter has
reached `CONSEC_FRAMES`, under the priority order
NoFace > Drowsy > Yawning > Distracted; if no counter has reached
`CONSEC_FRAMES` the state is Attentive. -/
def classify (cfg : Config) (c : Counters) : EngagementState :=
  if cfg.consecFrames ≤ c.noface then .NoFace
  else if cfg.consecFrames ≤ c.drowsy then .Drowsy
  else if cfg.consecFrames ≤ c.yawn then .Yawning
  else if cfg.consecFrames ≤ c.distract then .Distracted
  else .Attentive

/-- Counters after feeding a whole stream of per-frame landmark results. -/
def runCounters (cfg : Config) (c : Counters) : List (Option Metrics) → Counters
  | [] => c
  | m :: ms => runCounters cfg (updateCounters cfg c m) ms

/-- The per-frame sequence of reported states along a stream of per-frame
landmark results, starting from counters `c`. -/
def runStates (cfg : Config) (c : Counters) : List (Option Metrics) → List EngagementState
  | [] => []
  | m :: ms =>
      classify cfg (updateCounters cfg c m) :: runStates cfg (updateCounters cfg c m) ms

/-- Modelled from the spec: the default configuration of section 6 —
`EAR_THRESH = 0.22`, `MAR_THRESH = 0.6`; `ANGLE_THRESH` and
`CONSEC_FRAMES` are implementation-chosen, taken here as 20 degrees and
the spec's example value 15. -/
def defaultCfg : Config := ⟨22/100, 6/10, 20, 15⟩

/-- A frame on which the drowsy condition qualifies (face present,
`ear < EAR_THRESH`); the other metric conditions are unconstrained. -/
def drowsyFrame (cfg : Config) : Option Metrics → Bool
  | none => false
  | some m => decide (m.ear < cfg.earThresh)

/-- A frame on which the drowsy condition qualifies and no other condition
does (face present, `ear < EAR_THRESH`, `mar ≤ MAR_THRESH`,
`head_deviation ≤ ANGLE_THRESH`). -/
def drowsyOnlyFrame (cfg : Config) : Option Metrics → Bool
  | none => false
  | some m =>
      decide (m.ear < cfg.earThresh) && decide (m.mar ≤ cfg.marThresh)
        && decide (m.headDeviation ≤ cfg.angleThresh)

/-- A frame on which no condition qualifies (face present, all three metric
conditions false). -/
def calmFrame (cfg : Config) : Option Metrics → Bool
  | none => false
  | some m =>
      decide (cfg.earThresh ≤ m.ear) && decide (m.mar ≤ cfg.marThresh)
        && decide (m.headDeviation ≤ cfg.angleThresh)

/-- Priority rank of a reported state under the spec's order
NoFace > Drowsy > Yawning > Distracted (Attentive is the absence of any
satisfied condition). -/
def priorityRank : EngagementState → Nat
  | .NoFace => 4
  | .Drowsy => 3
  | .Yawning => 2
  | .Distracted => 1
  | .Attentive => 0

/-- The condition associated with a non-Attentive state is satisfied:
its consecutive-frame counter has reached `CONSEC_FRAMES`. -/
def conditionMet (cfg : Config) (c : Counters) : EngagementState → Prop
  | .NoFace => cfg.consecFrames ≤ c.noface
  | .Drowsy => cfg.consecFrames ≤ c.drowsy
  | .Yawning => cfg.consecFrames ≤ c.yawn
  | .Distracted => cfg.consecFrames ≤ c.distract
  | .Attentive => False

/-! ## Frame ingestion and result emission (modelled from the spec) -/

/-- Modelled from the spec: the error taxonomy entry `DecodeError` of
sections 4.1 and 7 — a malformed or empty frame payload. -/
inductive DecodeError where
  | emptyPayload
  | malformedPayload
deriving DecidableEq, Repr

/-- Modelled from the spec: the outbound result event of section 6, an
event carrying exactly `{status, ear_score, mar_score}`. -/
structure ResultEvent where
  status : String
  ear_score : ℚ
  mar_score : ℚ
deriving DecidableEq, Repr

/-- Modelled from the spec: the wire name of each classification state.
Section 6 says the status is "one of the five state names"; the concrete
strings are taken from the only in-repo consumer, the frontend status
mapping in App.js, which matches "Attentive", "Drowsy", "Yawning",
"Distracted" and "No Face Detected". -/
def statusName : EngagementState → String
  | .Attentive => "Attentive"
  | .Drowsy => "Drowsy"
  | .Yawning => "Yawning"
  | .Distracted => "Distracted"
  | .NoFace => "No Face Detected"

/-- Modelled from the spec: the per-connection Session of section 3,
owning one ClassificationState (reported state plus counters). -/
structure Session where
  counters : Counters
  status : EngagementState
deriving DecidableEq, Repr

/-- Modelled from the spec: a fresh session — initial state Attentive
(section 4.4), counters zero. -/
def initSession : Session := ⟨initCounters, .Attentive⟩

/-- The scores placed in the outbound event: the current EAR and MAR, or
zero when landmarks are absent for the frame. -/
def emitScores : Option Metrics → ℚ × ℚ
  | none => (0, 0)
  | some m => (m.ear, m.mar)

/-- Modelled from the spec: one pass of a frame payload through the
pipeline of section 2 (FrameIngestor, then the LandmarkProvider and
MetricComputer abstracted as `detect`, then StateClassifier, then
ResultEmitter).  On `DecodeError` the frame is dropped: the session is
returned unchanged and no event is emitted (sections 4.1 and 7);
otherwise the counters are updated, the state reclassified, and one
result event is produced. -/
def processFrame {Img : Type} (cfg : Config)
    (decode : String → Except DecodeError Img)
    (detect : Img → Option Metrics)
    (s : Session) (payload : String) : Session × Option ResultEvent :=
  match decode payload with
  | .error _ => (s, none)
  | .ok img =>
      let m := detect img
      let c1 := updateCounters cfg s.counters m
      let st := classify cfg c1
      (⟨c1, st⟩, some ⟨statusName st, (emitScores m).1, (emitScores m).2⟩)

/-! ## Frontend embedding (src/frontend/src/App.js) -/

/-- Maximum data points to show in the chart (App.js line 34). -/
def MAX_CHART_POINTS : Nat := 30

/-- The status-to-color mapping of App.js lines 37 to 43. -/
def STATUS_COLORS : List (String × String) :=
  [("Attentive", "#00ff88"),
   ("Drowsy", "#ff4444"),
   ("Yawning", "#ffaa00"),
   ("Distracted", "#ff6600"),
   ("No Face Detected", "#888888")]

/-- The status names consumed by the frontend mapping: the keys of
`STATUS_COLORS`. -/
def consumedStatusNames : List String := STATUS_COLORS.map Prod.fst

/-- The status badge color of App.js line 289: the mapped color, with
the gray fallback when the status is not a key of `STATUS_COLORS`. -/
def statusColor (s : String) : String :=
  (STATUS_COLORS.lookup s).getD "#888888"

/-- The attentiveness score computed by the status-update handler of
App.js lines 103 to 114: 100 by default, `max 20 (ear*200)` for Drowsy,
`max 30 (100 - mar*100)` for Yawning, 25 for Distracted, 0 for
No Face Detected. -/
def attentivenessScore (status : String) (ear_score mar_score : ℚ) : ℚ :=
  if status = "Drowsy" then max 20 (ear_score * 200)
  else if status = "Yawning" then max 30 (100 - mar_score * 100)
  else if status = "Distracted" then 25
  else if status = "No Face Detected" then 0
  else 100

/-- One chart entry as built in App.js lines 119 to 124: a time label,
the rounded attentiveness score, and the scaled EAR and MAR values. -/
structure ChartPoint where
  time : String
  score : ℤ
  ear : ℚ
  mar : ℚ
deriving DecidableEq, Repr

/-- JavaScript `Math.round`: round half toward positive infinity. -/
def jsRound (q : ℚ) : ℤ := ⌊q + 1/2⌋

/-- The chart entry appended by the status-update handler for a given
time label, status and scores (App.js lines 117 to 124). -/
def mkChartPoint (t status : String) (ear_score mar_score : ℚ) : ChartPoint :=
  ⟨t, jsRound (attentivenessScore status ear_score mar_score),
   ear_score * 100, mar_score * 100⟩

/-- JavaScript `array.slice(-n)` for positive `n`: the last `n` elements
(the whole array when it is shorter than `n`). -/
def sliceLast (n : Nat) (l : List α) : List α := l.drop (l.length - n)

/-- The chart-data update of App.js lines 118 to 126: append the new
entry, then keep only the last `MAX_CHART_POINTS` entries. -/
def updateChartData (prev : List ChartPoint) (p : ChartPoint) : List ChartPoint :=
  sliceLast MAX_CHART_POINTS (prev ++ [p])

/-! ## Frontend capture loop embedding (src/frontend/src/App.js) -/

/-- The inbound event emitted by the client (App.js line 159): a
`video_frame` event carrying the single field `frame`. -/
structure FrameEvent where
  frame : String
deriving DecidableEq, Repr

/-- The capture interval period in milliseconds (App.js line 176). -/
def CAPTURE_INTERVAL_MS : Nat := 200

/-- The `captureFrame` callback of App.js lines 155 to 162: emit one
`video_frame` event holding the webcam screenshot, but only when the
webcam is mounted, the socket exists and is connected, and the
screenshot is non-null. -/
def captureFrame (webcamMounted socketPresent socketConnected : Bool)
    (screenshot : Option String) : Option FrameEvent :=
  if webcamMounted && socketPresent && socketConnected then
    match screenshot with
    | some s => some ⟨s⟩
    | none => none
  else none

/-- The client-side state relevant to the capture loop: the `isStreaming`
flag, whether the capture interval is set (`captureIntervalRef` non-null),
and the environment flags read by `captureFrame`. -/
structure ClientState where
  isStreaming : Bool
  intervalActive : Bool
  socketPresent : Bool
  socketConnected : Bool
  webcamMounted : Bool
deriving DecidableEq, Repr

/-- The client events that drive the capture loop: a 200ms capture tick
(carrying the screenshot the webcam returns, `none` when unavailable),
the `toggleStreaming` button, `handleLogout`, and the socket connect and
disconnect handlers. -/
inductive ClientAction where
  | tick (screenshot : Option String)
  | toggleStreaming
  | logout
  | socketConnect
  | socketDisconnect
deriving DecidableEq, Repr

/-- One step of the client capture loop, embedded from App.js: a tick
runs `captureFrame` only while the interval is set (lines 155 to 162 and
176); `toggleStreaming` (lines 167 to 179) clears the interval when
streaming and sets it when not; `handleLogout` (lines 265 to 276) clears
the interval and stops streaming; the socket handlers (lines 81 to 89)
update the connected flag. -/
def clientStep (st : ClientState) : ClientAction → ClientState × Option FrameEvent
  | .tick shot =>
      if st.intervalActive then
        (st, captureFrame st.webcamMounted st.socketPresent st.socketConnected shot)
      else (st, none)
  | .toggleStreaming =>
      if st.isStreaming then
        ({ st with isStreaming := false, intervalActive := false }, none)
      else
        ({ st with isStreaming := true, intervalActive := true }, none)
  | .logout => ({ st with isStreaming := false, intervalActive := false }, none)
  | .socketConnect => ({ st with socketConnected := true }, none)
  | .socketDisconnect => ({ st with socketConnected := false }, none)

/-- The events emitted along a sequence of client actions, with the final
client state. -/
def runClient (st : ClientState) : List ClientAction → ClientState × List FrameEvent
  | [] => (st, [])
  | a :: rest =>
      let r := clientStep st a
      let tail := runClient r.1 rest
      (tail.1, r.2.toList ++ tail.2)

/-! ## Info-box documentation embedding (src/frontend/src/App.js) -/

/-- A list item of the "How It Works" info box, split as rendered: the
bold condition text and the explanation text (App.js lines 516 to 520). -/
structure InfoItem where
  bold : String
  rest : String
deriving DecidableEq, Repr

/-- The three info-box list items of App.js lines 516 to 520, transcribed
verbatim. -/
def infoBoxItems : List InfoItem :=
  [⟨"EAR < 0.22:", " Eyes closing → Drowsy"⟩,
   ⟨"MAR > 0.6:", " Mouth open → Yawning"⟩,
   ⟨"Head turned:", " Looking away → Distracted"⟩]

/-- Direction of a documented threshold comparison. -/
inductive CmpDir where
  | isLt
  | isGt
deriving DecidableEq, Repr

/-- A documented numeric threshold rule of the info box: metric name,
comparison direction, bound, and resulting status. -/
structure DocRule where
  metric : String
  dir : CmpDir
  bound : ℚ
  outcome : String
deriving DecidableEq, Repr

/-- The two numeric rules stated by the info box of App.js lines 517 and
518, with their threshold values transcribed as rationals. -/
def infoBoxThresholdRules : List DocRule :=
  [⟨"EAR", .isLt, 22/100, "Drowsy"⟩,
   ⟨"MAR", .isGt, 6/10, "Yawning"⟩]

/-! ## Concrete instances used to exercise the theorems -/

/-- A small configuration with integer thresholds and a three-frame
debounce window, used to evaluate the classifier on concrete streams. -/
def cfgSmall : Config := ⟨1, 1, 1, 3⟩

/-- A configuration with a two-frame debounce window. -/
def cfgTwo : Config := ⟨1, 1, 1, 2⟩

/-- A concrete frame on which only the drowsy condition qualifies under
`cfgSmall`. -/
def drowsySample : Option Metrics := some ⟨0, 0, 0⟩

/-- A concrete frame on which no condition qualifies under `cfgSmall`. -/
def calmSample : Option Metrics := some ⟨1, 0, 0⟩

/-- A client state in which streaming is active, the interval is set, the
socket exists and is connected, and the webcam is mounted. -/
def streamingState : ClientState := ⟨true, true, true, true, true⟩

/-- A client state in which streaming has been stopped (interval cleared)
while the socket stays connected. -/
def stoppedState : ClientState := ⟨false, false, true, true, true⟩

/-- A concrete decoder over string images: the empty payload fails with
`DecodeError`, any other payload decodes to itself. -/
def decodeStub : String → Except DecodeError String :=
  fun p => if p = "" then Except.error DecodeError.emptyPayload else Except.ok p

/-- A concrete landmark detector that always reports absence. -/
def detectStub : String → Option Metrics := fun _ => none

end WBA

/-! # Theorems -/

namespace WBA

/-- Helper: every wire status name produced by the emitter is a key of the
frontend status mapping. -/
theorem statusName_mem_consumed : ∀ st : EngagementState, statusName st ∈ consumedStatusNames := by
  intro st
  cases st <;> decide

/-- C9: the chart data update appends one entry and keeps only the last
`MAX_CHART_POINTS = 30` entries — the result has length
`min (previous length + 1) 30` and is a suffix of the appended list, so
the invariant `length ≤ 30` is preserved and the retained entries are the
most recent ones in arrival order. -/
theorem C9_chart_window :
    ∀ (prev : List ChartPoint) (p : ChartPoint),
      (updateChartData prev p).length = min (prev.length + 1) MAX_CHART_POINTS ∧
      List.IsSuffix (updateChartData prev p) (prev ++ [p]) := by
  intro prev p
  constructor
  · simp only [updateChartData, sliceLast, MAX_CHART_POINTS, List.length_drop,
      List.length_append, List.length_singleton]
    omega
  · exact List.drop_suffix _ _

/-- C8 counterexample: at status Drowsy with `ear_score = 1 ≥ 0` and
`mar_score = 0 ≥ 0`, the handler computes `max 20 (1 * 200) = 200`, which
is not in the closed interval `[0, 100]` — the claimed bound fails. -/
theorem C8_counterexample :
    (0:ℚ) ≤ 1 ∧ (0:ℚ) ≤ 0 ∧
    attentivenessScore "Drowsy" 1 0 = 200 ∧
    ¬ attentivenessScore "Drowsy" 1 0 ≤ 100 := by
  refine ⟨by norm_num, le_refl 0, ?_, ?_⟩ <;> norm_num [attentivenessScore]

/-- C8 (amended): for every status string and scores with
`ear_score ≥ 0`, `mar_score ≥ 0` and additionally `ear_score * 200 ≤ 100`
(that is, `ear_score ≤ 0.5`), the attentiveness score computed by the
handler lies in the closed interval `[0, 100]`. -/
theorem C8_score_range :
    ∀ (status : String) (ear_score mar_score : ℚ),
      0 ≤ ear_score → 0 ≤ mar_score → ear_score * 200 ≤ 100 →
      0 ≤ attentivenessScore status ear_score mar_score ∧
        attentivenessScore status ear_score mar_score ≤ 100 := by
  intro status e m he hm hcap
  unfold attentivenessScore
  split_ifs
  · exact ⟨le_max_of_le_left (by norm_num), max_le (by norm_num) hcap⟩
  · exact ⟨le_max_of_le_left (by norm_num), max_le (by norm_num) (by linarith)⟩
  · norm_num
  · norm_num
  · norm_num

/-- C8 witness: at status Drowsy with both scores zero the bound holds. -/
theorem C8_score_range_witness :
    0 ≤ attentivenessScore "Drowsy" 0 0 ∧ attentivenessScore "Drowsy" 0 0 ≤ 100 :=
  C8_score_range "Drowsy" 0 0 (le_refl 0) (le_refl 0) (by simp)

/-- C6: the info box visible to the user documents the drowsy condition
as `EAR < 0.22` and the yawning condition as `MAR > 0.6`; these match the
default thresholds `EAR_THRESH = 0.22` and `MAR_THRESH = 0.6`, and the
classifier compares in the documented directions (`ear < EAR_THRESH`
increments the drowsy counter, `mar > MAR_THRESH` the yawning counter). -/
theorem C6_documented_thresholds :
    (⟨"EAR", CmpDir.isLt, 22/100, "Drowsy"⟩ : DocRule) ∈ infoBoxThresholdRules ∧
    (⟨"MAR", CmpDir.isGt, 6/10, "Yawning"⟩ : DocRule) ∈ infoBoxThresholdRules ∧
    (⟨"EAR < 0.22:", " Eyes closing → Drowsy"⟩ : InfoItem) ∈ infoBoxItems ∧
    (⟨"MAR > 0.6:", " Mouth open → Yawning"⟩ : InfoItem) ∈ infoBoxItems ∧
    defaultCfg.earThresh = 22/100 ∧ defaultCfg.marThresh = 6/10 ∧
    (∀ (cfg : Config) (c : Counters) (m : Metrics),
      ((updateCounters cfg c (some m)).drowsy = c.drowsy + 1 ↔ m.ear < cfg.earThresh) ∧
      ((updateCounters cfg c (some m)).yawn = c.yawn + 1 ↔ m.mar > cfg.marThresh)) := by
  refine ⟨List.Mem.head _, List.Mem.tail _ (List.Mem.head _),
    List.Mem.head _, List.Mem.tail _ (List.Mem.head _), rfl, rfl, ?_⟩
  intro cfg c m
  constructor
  · simp only [updateCounters]
    split_ifs with h <;> simp [h]
  · simp only [updateCounters]
    split_ifs with h <;> simp [h]

/-- C1 counterexample: the frontend status mapping does not consume the
name `NoFace`; its fifth key is `No Face Detected`, and the score handler
treats the string `NoFace` as the default (Attentive-style) case rather
than the no-face case. -/
theorem C1_counterexample :
    ¬ ("NoFace" ∈ consumedStatusNames) ∧
    "No Face Detected" ∈ consumedStatusNames ∧
    attentivenessScore "NoFace" 0 0 = 100 ∧
    attentivenessScore "No Face Detected" 0 0 = 0 := by
  refine ⟨by decide, by decide, by decide, by decide⟩

/-- C1 (amended): every outbound result event carries exactly the fields
status, ear_score, mar_score, and its status value is one of the five
names Attentive, Drowsy, Yawning, Distracted, No Face Detected — exactly
the names the frontend status mapping consumes. -/
theorem C1_result_fields :
    consumedStatusNames =
      ["Attentive", "Drowsy", "Yawning", "Distracted", "No Face Detected"] ∧
    (∀ st : EngagementState, statusName st ∈ consumedStatusNames) ∧
    (∀ (Img : Type) (cfg : Config) (decode : String → Except DecodeError Img)
        (detect : Img → Option Metrics) (s : Session) (payload : String)
        (s2 : Session) (evt : ResultEvent),
      processFrame cfg decode detect s payload = (s2, some evt) →
      evt.status ∈ consumedStatusNames) ∧
    (∀ e1 e2 : ResultEvent, e1.status = e2.status → e1.ear_score = e2.ear_score →
      e1.mar_score = e2.mar_score → e1 = e2) := by
  refine ⟨rfl, statusName_mem_consumed, ?_, ?_⟩
  · intro Img cfg decode detect s payload s2 evt h
    unfold processFrame at h
    rcases hd : decode payload with e | img <;> rw [hd] at h <;> simp at h
    rw [← h.2]
    exact statusName_mem_consumed _
  · intro e1 e2 h1 h2 h3
    obtain ⟨a1, b1, c1⟩ := e1
    obtain ⟨a2, b2, c2⟩ := e2
    simp_all

/-- C1 witness: processing a decodable frame with absent landmarks from a
fresh session emits an event whose status is a consumed name. -/
theorem C1_result_fields_witness : "Attentive" ∈ consumedStatusNames :=
  C1_result_fields.2.2.1 String defaultCfg decodeStub detectStub initSession "x"
    ⟨⟨1, 0, 0, 0⟩, EngagementState.Attentive⟩ ⟨"Attentive", 0, 0⟩ rfl

/-- Helper: while the capture interval is cleared, a run containing no
toggleStreaming action emits no video_frame event. -/
theorem run_silent_of_inactive :
    ∀ (acts : List ClientAction) (st : ClientState),
      st.intervalActive = false →
      (∀ a ∈ acts, a ≠ ClientAction.toggleStreaming) →
      (runClient st acts).2 = [] := by
  intro acts
  induction acts with
  | nil => intro st h1 h2; rfl
  | cons a rest ih =>
      intro st h1 h2
      have hrest : ∀ b ∈ rest, b ≠ ClientAction.toggleStreaming :=
        fun b hb => h2 b (List.mem_cons_of_mem a hb)
      cases a with
      | tick shot =>
          simp only [runClient, clientStep, h1, if_false, Option.toList_none,
            List.nil_append, Bool.false_eq_true]
          exact ih st h1 hrest
      | toggleStreaming => exact absurd rfl (h2 _ (List.mem_cons_self _ _))
      | logout =>
          simp only [runClient, clientStep, Option.toList_none, List.nil_append]
          exact ih _ rfl hrest
      | socketConnect =>
          simp only [runClient, clientStep, Option.toList_none, List.nil_append]
          exact ih _ h1 hrest
      | socketDisconnect =>
          simp only [runClient, clientStep, Option.toList_none, List.nil_append]
          exact ih _ h1 hrest

/-- C10: a video_frame event is emitted only by a capture tick fired
while the interval is set, the socket exists and is connected and the
webcam is mounted, with a non-null screenshot (and it carries that
screenshot); stopping via toggleStreaming or logging out clears the
interval; and from a cleared interval, any run without a toggleStreaming
action emits no event at all. -/
theorem C10_no_spurious_emission :
    (∀ (st : ClientState) (a : ClientAction) (st2 : ClientState) (e : FrameEvent),
      clientStep st a = (st2, some e) →
      st.intervalActive = true ∧ st.socketPresent = true ∧
        st.socketConnected = true ∧ st.webcamMounted = true ∧
        a = ClientAction.tick (some e.frame)) ∧
    (∀ st : ClientState, st.isStreaming = true →
      ((clientStep st ClientAction.toggleStreaming).1).intervalActive = false) ∧
    (∀ st : ClientState, ((clientStep st ClientAction.logout).1).intervalActive = false) ∧
    (∀ (st : ClientState) (acts : List ClientAction),
      st.intervalActive = false →
      (∀ a ∈ acts, a ≠ ClientAction.toggleStreaming) →
      (runClient st acts).2 = []) := by
  refine ⟨?_, ?_, ?_, fun st acts h1 h2 => run_silent_of_inactive acts st h1 h2⟩
  · intro st a st2 e h
    cases a with
    | tick shot =>
        cases hI : st.intervalActive with
        | false => rw [clientStep, if_neg (by simp [hI])] at h; simp at h
        | true =>
            rw [clientStep, if_pos hI] at h
            have hc : captureFrame st.webcamMounted st.socketPresent st.socketConnected shot
                = some e := congrArg Prod.snd h
            unfold captureFrame at hc
            cases hg : (st.webcamMounted && st.socketPresent && st.socketConnected) with
            | false => rw [if_neg (by simp [hg])] at hc; exact absurd hc (by simp)
            | true =>
                rw [if_pos hg] at hc
                obtain ⟨hw, hp, hcn⟩ : st.webcamMounted = true ∧ st.socketPresent = true ∧
                    st.socketConnected = true := by
                  simpa [Bool.and_eq_true, and_assoc] using hg
                cases shot with
                | none => exact absurd hc (by simp)
                | some s =>
                    refine ⟨rfl, hp, hcn, hw, ?_⟩
                    have : FrameEvent.mk s = e := by simpa using hc
                    rw [← this]
    | toggleStreaming =>
        rw [clientStep] at h
        split_ifs at h <;> simp at h
    | logout => rw [clientStep] at h; simp at h
    | socketConnect => rw [clientStep] at h; simp at h
    | socketDisconnect => rw [clientStep] at h; simp at h
  · intro st hs
    rw [clientStep, if_pos hs]
  · intro st
    rw [clientStep]

/-- C10 witness: from a stopped client, a run of ticks and a logout with
no restart emits nothing. -/
theorem C10_no_spurious_emission_witness :
    (runClient stoppedState
      [ClientAction.tick (some "img"), ClientAction.logout,
       ClientAction.tick (some "img")]).2 = [] :=
  C10_no_spurious_emission.2.2.2 stoppedState
    [ClientAction.tick (some "img"), ClientAction.logout, ClientAction.tick (some "img")]
    rfl (by decide)

/-- C5 counterexample: with streaming active and the socket connected but
the webcam screenshot unavailable, a capture tick emits no video_frame
event, so the claim that exactly one event is emitted per 200ms tick
under those conditions alone is false. -/
theorem C5_counterexample :
    streamingState.isStreaming = true ∧ streamingState.socketConnected = true ∧
    clientStep streamingState (ClientAction.tick none) = (streamingState, none) := by
  refine ⟨rfl, rfl, rfl⟩

/-- C5 (amended): while the capture interval is set and additionally the
webcam is mounted, the socket exists and is connected, and the screenshot
is non-null, a capture tick emits exactly one video_frame event, carrying
the single field frame holding that screenshot; every tick emits at most
one event; the streaming flag and the interval stay in lockstep; and the
capture tick period is 200ms. -/
theorem C5_frame_emission :
    (∀ (st : ClientState) (s : String),
      st.intervalActive = true → st.webcamMounted = true → st.socketPresent = true →
      st.socketConnected = true →
      clientStep st (ClientAction.tick (some s)) = (st, some ⟨s⟩)) ∧
    (∀ (st : ClientState) (shot : Option String),
      ((clientStep st (ClientAction.tick shot)).2).toList.length ≤ 1) ∧
    (∀ st : ClientState, st.isStreaming = st.intervalActive →
      ∀ a : ClientAction,
        ((clientStep st a).1).isStreaming = ((clientStep st a).1).intervalActive) ∧
    CAPTURE_INTERVAL_MS = 200 := by
  refine ⟨?_, ?_, ?_, rfl⟩
  · intro st s h1 h2 h3 h4
    simp [clientStep, h1, captureFrame, h2, h3, h4]
  · intro st shot
    cases hI : st.intervalActive <;>
      simp only [clientStep, hI, if_true, if_false, Bool.false_eq_true] <;>
      cases hc : captureFrame st.webcamMounted st.socketPresent st.socketConnected shot <;>
      simp [hc]
  · intro st hs a
    cases a <;> simp only [clientStep] <;> (try split_ifs) <;> simp [hs]

/-- C5 witness: a tick in the fully-ready streaming state emits exactly
the video_frame event carrying the screenshot. -/
theorem C5_frame_emission_witness :
    clientStep streamingState (ClientAction.tick (some "img")) =
      (streamingState, some ⟨"img"⟩) :=
  C5_frame_emission.1 streamingState "img" rfl rfl rfl rfl

/-- C3: whenever at least two distinct conditions have their counters at
`CONSEC_FRAMES`, the classifier reports a satisfied condition of maximal
priority under NoFace > Drowsy > Yawning > Distracted; in particular,
when the Drowsy and Yawning conditions qualify simultaneously (and the
face is present so NoFace does not), the reported state is Drowsy. -/
theorem C3_priority :
    ∀ (cfg : Config) (c : Counters) (s t : EngagementState),
      s ≠ t → conditionMet cfg c s → conditionMet cfg c t →
      conditionMet cfg c (classify cfg c) ∧
      (∀ u : EngagementState, conditionMet cfg c u →
        priorityRank u ≤ priorityRank (classify cfg c)) ∧
      (c.noface < cfg.consecFrames → cfg.consecFrames ≤ c.drowsy →
        cfg.consecFrames ≤ c.yawn → classify cfg c = EngagementState.Drowsy) := by
  intro cfg c s t hst hs ht
  unfold classify
  split_ifs with h1 h2 h3 h4
  · refine ⟨h1, ?_, ?_⟩
    · intro u _
      cases u <;> decide
    · intro hnf _ _
      exact absurd h1 (by omega)
  · refine ⟨h2, ?_, fun _ _ _ => rfl⟩
    intro u hu
    cases u with
    | Attentive => exact hu.elim
    | Drowsy => decide
    | Yawning => decide
    | Distracted => decide
    | NoFace => exact absurd hu h1
  · refine ⟨h3, ?_, ?_⟩
    · intro u hu
      cases u with
      | Attentive => exact hu.elim
      | Drowsy => exact absurd hu h2
      | Yawning => decide
      | Distracted => decide
      | NoFace => exact absurd hu h1
    · intro _ hd _
      exact absurd hd h2
  · refine ⟨h4, ?_, ?_⟩
    · intro u hu
      cases u with
      | Attentive => exact hu.elim
      | Drowsy => exact absurd hu h2
      | Yawning => exact absurd hu h3
      | Distracted => decide
      | NoFace => exact absurd hu h1
    · intro _ hd _
      exact absurd hd h2
  · cases s with
    | Attentive => exact hs.elim
    | Drowsy => exact absurd hs h2
    | Yawning => exact absurd hs h3
    | Distracted => exact absurd hs h4
    | NoFace => exact absurd hs h1

/-- C3 witness: with a two-frame window, Drowsy and Yawning counters both
at 2 and the face present, the classifier reports Drowsy. -/
theorem C3_priority_witness : classify cfgTwo ⟨0, 2, 2, 0⟩ = EngagementState.Drowsy :=
  (C3_priority cfgTwo ⟨0, 2, 2, 0⟩ EngagementState.Drowsy EngagementState.Yawning
    (by decide) Nat.le.refl Nat.le.refl).2.2 (by decide) Nat.le.refl Nat.le.refl

/-- C4 counterexample: under the spec's classifier (section 4.4, with the
example window `CONSEC_FRAMES = 15`), a single Absent frame from a fresh
session yields state Attentive, not NoFace — the NoFace state is subject
to the same debounce as the other conditions, so the claim that any
Absent frame yields state NoFace is false. -/
theorem C4_counterexample :
    defaultCfg.consecFrames = 15 ∧
    classify defaultCfg (updateCounters defaultCfg initCounters none) =
      EngagementState.Attentive ∧
    EngagementState.Attentive ≠ EngagementState.NoFace := by
  refine ⟨rfl, by decide, by decide⟩

/-- C4 (amended): every Absent frame, regardless of the prior counters,
increments the NoFace counter and resets the three non-NoFace counters to
zero; the resulting state is NoFace exactly when the NoFace counter has
reached `CONSEC_FRAMES`, and Attentive below that. -/
theorem C4_absent_frame :
    ∀ (cfg : Config) (c : Counters),
      updateCounters cfg c none = ⟨c.noface + 1, 0, 0, 0⟩ ∧
      (classify cfg (updateCounters cfg c none) = EngagementState.NoFace ↔
        cfg.consecFrames ≤ c.noface + 1) ∧
      (c.noface + 1 < cfg.consecFrames →
        classify cfg (updateCounters cfg c none) = EngagementState.Attentive) := by
  intro cfg c
  refine ⟨rfl, ?_, ?_⟩
  · show classify cfg ⟨c.noface + 1, 0, 0, 0⟩ = _ ↔ _
    unfold classify
    dsimp only
    split_ifs with h1 h2 <;> simp_all
  · intro h
    show classify cfg ⟨c.noface + 1, 0, 0, 0⟩ = _
    unfold classify
    dsimp only
    rw [if_neg (by omega : ¬ cfg.consecFrames ≤ c.noface + 1),
      if_neg (by omega : ¬ cfg.consecFrames ≤ 0),
      if_neg (by omega : ¬ cfg.consecFrames ≤ 0),
      if_neg (by omega : ¬ cfg.consecFrames ≤ 0)]

/-- C4 witness: an Absent frame wipes even large pending counters and,
below the window, reports Attentive. -/
theorem C4_absent_frame_witness :
    classify defaultCfg (updateCounters defaultCfg ⟨0, 20, 20, 20⟩ none) =
      EngagementState.Attentive :=
  (C4_absent_frame defaultCfg ⟨0, 20, 20, 20⟩).2.2 (by decide)

/-- C7: when decoding a frame payload fails with DecodeError, the frame
is dropped: the pipeline step returns the session unchanged (state and
counters untouched) and emits no result event; the step is a total
function, so the failure does not propagate as a crash. -/
theorem C7_decode_error :
    ∀ (Img : Type) (cfg : Config) (decode : String → Except DecodeError Img)
      (detect : Img → Option Metrics) (s : Session) (payload : String)
      (e : DecodeError),
      decode payload = Except.error e →
      processFrame cfg decode detect s payload = (s, none) := by
  intro Img cfg decode detect s payload e h
  unfold processFrame
  rw [h]

/-- C7 witness: the empty payload fails to decode and is dropped with the
fresh session unchanged and nothing emitted. -/
theorem C7_decode_error_witness :
    processFrame defaultCfg decodeStub detectStub initSession "" = (initSession, none) :=
  C7_decode_error String defaultCfg decodeStub detectStub initSession ""
    DecodeError.emptyPayload rfl

/-- Helper: the state sequence of a concatenated stream splits at the
concatenation point, the second part running from the accumulated
counters. -/
theorem runStates_append (cfg : Config) (xs ys : List (Option Metrics)) :
    ∀ c : Counters,
      runStates cfg c (xs ++ ys) =
        runStates cfg c xs ++ runStates cfg (runCounters cfg c xs) ys := by
  induction xs with
  | nil => intro c; rfl
  | cons m ms ih =>
      intro c
      simp only [List.cons_append, runStates, runCounters, List.append_eq]
      rw [ih]

/-- Helper: on a stream of frames where no condition qualifies, every
reported state is Attentive, from any starting counters. -/
theorem calm_run (cfg : Config) (hn : 1 ≤ cfg.consecFrames) :
    ∀ ys : List (Option Metrics), (∀ m ∈ ys, calmFrame cfg m = true) →
      ∀ c : Counters,
        runStates cfg c ys = List.replicate ys.length EngagementState.Attentive := by
  intro ys
  induction ys with
  | nil => intro _ c; rfl
  | cons m ms ih =>
      intro hall c
      have hm := hall m (List.mem_cons_self m ms)
      cases m with
      | none => simp [calmFrame] at hm
      | some mm =>
          simp only [calmFrame, Bool.and_eq_true, decide_eq_true_eq] at hm
          obtain ⟨⟨hear, hmar⟩, hdev⟩ := hm
          have hu : updateCounters cfg c (some mm) = ⟨0, 0, 0, 0⟩ := by
            simp only [updateCounters]
            rw [if_neg (not_lt.mpr hear), if_neg (not_lt.mpr hmar), if_neg (not_lt.mpr hdev)]
          have hcls : classify cfg (⟨0, 0, 0, 0⟩ : Counters) = EngagementState.Attentive := by
            unfold classify
            dsimp only
            rw [if_neg (by omega), if_neg (by omega), if_neg (by omega), if_neg (by omega)]
          simp only [runStates, List.length_cons, List.replicate_succ]
          rw [hu, hcls, ih (fun b hb => hall b (List.mem_cons_of_mem _ hb)) ⟨0, 0, 0, 0⟩]

/-- Helper: on a stream of frames where only the drowsy condition
qualifies, shorter than the remaining debounce budget, every reported
state is Attentive and the counters accumulate only the drowsy count. -/
theorem drowsyOnly_run (cfg : Config) :
    ∀ xs : List (Option Metrics), (∀ m ∈ xs, drowsyOnlyFrame cfg m = true) →
      ∀ c : Counters, c.noface = 0 → c.yawn = 0 → c.distract = 0 →
        c.drowsy + xs.length < cfg.consecFrames →
        runStates cfg c xs = List.replicate xs.length EngagementState.Attentive ∧
        runCounters cfg c xs = ⟨0, c.drowsy + xs.length, 0, 0⟩ := by
  intro xs
  induction xs with
  | nil =>
      intro _ c h0 hy ht _
      refine ⟨rfl, ?_⟩
      obtain ⟨nf, d, y, t⟩ := c
      simp_all [runCounters]
  | cons m ms ih =>
      intro hall c h0 hy ht hlt
      have hm := hall m (List.mem_cons_self m ms)
      cases m with
      | none => simp [drowsyOnlyFrame] at hm
      | some mm =>
          simp only [drowsyOnlyFrame, Bool.and_eq_true, decide_eq_true_eq] at hm
          obtain ⟨⟨hear, hmar⟩, hdev⟩ := hm
          have hu : updateCounters cfg c (some mm) = ⟨0, c.drowsy + 1, 0, 0⟩ := by
            simp only [updateCounters]
            rw [if_pos hear, if_neg (not_lt.mpr hmar), if_neg (not_lt.mpr hdev)]
          have hlen : c.drowsy + 1 + ms.length < cfg.consecFrames := by
            simp only [List.length_cons] at hlt
            omega
          have hcls : classify cfg (⟨0, c.drowsy + 1, 0, 0⟩ : Counters) =
              EngagementState.Attentive := by
            unfold classify
            dsimp only
            rw [if_neg (by omega), if_neg (by omega), if_neg (by omega), if_neg (by omega)]
          have ihh := ih (fun b hb => hall b (List.mem_cons_of_mem _ hb))
            ⟨0, c.drowsy + 1, 0, 0⟩ rfl rfl rfl hlen
          constructor
          · simp only [runStates, List.length_cons, List.replicate_succ]
            rw [hu, hcls, ihh.1]
          · simp only [runCounters, List.length_cons]
            rw [hu, ihh.2]
            show (⟨0, c.drowsy + 1 + ms.length, 0, 0⟩ : Counters) =
              ⟨0, c.drowsy + (ms.length + 1), 0, 0⟩
            have hq : c.drowsy + 1 + ms.length = c.drowsy + (ms.length + 1) := by omega
            rw [hq]

/-- Helper: on a stream of frames on which the drowsy condition always
qualifies and the face is present, starting from counters whose yawn and
distract counts are dominated by the drowsy count, the reported state at
position i is Drowsy exactly when the drowsy count has reached the
window, and Attentive before. -/
theorem drowsy_run (cfg : Config) (hn : 1 ≤ cfg.consecFrames) :
    ∀ ms : List (Option Metrics), (∀ m ∈ ms, drowsyFrame cfg m = true) →
      ∀ c : Counters, c.yawn ≤ c.drowsy → c.distract ≤ c.drowsy →
        runStates cfg c ms = (List.range ms.length).map
          (fun i => if cfg.consecFrames ≤ c.drowsy + i + 1 then EngagementState.Drowsy
            else EngagementState.Attentive) := by
  intro ms
  induction ms with
  | nil => intro _ c _ _; rfl
  | cons m rest ih =>
      intro hall c hy ht
      have hm := hall m (List.mem_cons_self m rest)
      cases m with
      | none => simp [drowsyFrame] at hm
      | some mm =>
          have hear : mm.ear < cfg.earThresh := by
            simpa [drowsyFrame, decide_eq_true_eq] using hm
          set y1 := if mm.mar > cfg.marThresh then c.yawn + 1 else 0 with hy1
          set t1 := if mm.headDeviation > cfg.angleThresh then c.distract + 1 else 0 with ht1
          have hu : updateCounters cfg c (some mm) = ⟨0, c.drowsy + 1, y1, t1⟩ := by
            simp only [updateCounters, hy1, ht1]
            rw [if_pos hear]
          have hyb : y1 ≤ c.drowsy + 1 := by
            rw [hy1]
            split <;> omega
          have htb : t1 ≤ c.drowsy + 1 := by
            rw [ht1]
            split <;> omega
          have hcls : classify cfg (⟨0, c.drowsy + 1, y1, t1⟩ : Counters) =
              if cfg.consecFrames ≤ c.drowsy + 1 then EngagementState.Drowsy
              else EngagementState.Attentive := by
            unfold classify
            dsimp only
            rw [if_neg (by omega : ¬ cfg.consecFrames ≤ 0)]
            by_cases hd : cfg.consecFrames ≤ c.drowsy + 1
            · rw [if_pos hd, if_pos hd]
            · rw [if_neg hd, if_neg hd, if_neg (by omega), if_neg (by omega)]
          have ihh := ih (fun b hb => hall b (List.mem_cons_of_mem _ hb))
            ⟨0, c.drowsy + 1, y1, t1⟩ hyb htb
          simp only [runStates, List.length_cons]
          rw [hu, hcls, ihh]
          rw [List.range_succ_eq_map, List.map_cons, List.map_map]
          congr 1
          refine List.map_congr_left ?_
          intro a _
          simp only [Function.comp_apply]
          dsimp only
          have hiq : c.drowsy + 1 + a + 1 = c.drowsy + (a + 1) + 1 := by omega
          rw [hiq]

/-- C2: starting from a fresh session, (a) a stream with the drowsy
condition qualifying on exactly CONSEC_FRAMES - 1 consecutive frames (no
other condition qualifying) followed by frames on which no condition
qualifies keeps the state Attentive on every frame; (b) on a stream where
the drowsy condition qualifies on every frame (face present, no
higher-priority condition), the state is Drowsy exactly from the
CONSEC_FRAMES-th frame and Attentive on every earlier frame. -/
theorem C2_debounce (cfg : Config) (hn : 1 ≤ cfg.consecFrames) :
    (∀ xs ys : List (Option Metrics),
      xs.length + 1 = cfg.consecFrames →
      (∀ m ∈ xs, drowsyOnlyFrame cfg m = true) →
      (∀ m ∈ ys, calmFrame cfg m = true) →
      runStates cfg initCounters (xs ++ ys) =
        List.replicate (xs.length + ys.length) EngagementState.Attentive) ∧
    (∀ ms : List (Option Metrics),
      (∀ m ∈ ms, drowsyFrame cfg m = true) →
      runStates cfg initCounters ms =
        (List.range ms.length).map
          (fun i => if cfg.consecFrames ≤ i + 1 then EngagementState.Drowsy
            else EngagementState.Attentive)) := by
  constructor
  · intro xs ys hlen hxs hys
    have hdo := drowsyOnly_run cfg xs hxs initCounters rfl rfl rfl
      (show 0 + xs.length < cfg.consecFrames by omega)
    rw [runStates_append cfg xs ys initCounters, hdo.1, hdo.2,
      calm_run cfg hn ys hys _, List.replicate_add]
  · intro ms hms
    rw [drowsy_run cfg hn ms hms initCounters Nat.le.refl Nat.le.refl]
    simp [initCounters]

/-- C2 witness: with a three-frame window and concrete drowsy-only
frames, the state sequence for three qualifying frames is Attentive,
Attentive, Drowsy. -/
theorem C2_debounce_witness :
    runStates cfgSmall initCounters [drowsySample, drowsySample, drowsySample] =
      [EngagementState.Attentive, EngagementState.Attentive, EngagementState.Drowsy] := by
  have h := (C2_debounce cfgSmall (by decide)).2
    [drowsySample, drowsySample, drowsySample] (by decide)
  rw [h]
  decide

end WBA

